import Mathlib

/-!
Verification of the av-skill langgraph-agent examples against the spec of the
underlying stateful graph execution engine.

The repository's source files are five example scripts
(01_sequential_chain.py .. 05_multi_agent.py).  Functions defined in those
files (node step functions, branch functions, tool bodies, graph topologies)
are embedded directly from the source.  The engine they drive (StateGraph,
compile, invoke, checkpointing, ToolNode dispatch, getState) is not part of
the repository's files; it is modelled from the spec (spec.md sections 3-7),
as indicated on each such definition.
-/

namespace LG

/-- Modelled from the spec: node identifiers.  Two reserved pseudo-node names
exist: START (virtual entry, never executed) and END (virtual terminal,
execution halts when reached); ordinary nodes are identified by a unique
string name (spec section 3, Node). -/
inductive NodeId where
  | START : NodeId
  | END : NodeId
  | node : String → NodeId
deriving DecidableEq, Repr

/-- Modelled from the spec: the error taxonomy of section 7 (the parts the
claims touch): `GraphIntegrityError` raised at compile time, `RoutingError`
when a branch key is absent from its mapping, plus run-time conditions for a
missing node function or a missing initial input. -/
inductive EngineError where
  | graphIntegrity : EngineError
  | routing : EngineError
  | missingNode : EngineError
  | missingInput : EngineError
deriving DecidableEq, Repr

variable {σ υ : Type}

/-- Modelled from the spec: the build-time graph definition surface (spec
section 6): named nodes with step functions `(State) -> PartialState`,
unconditional edges, conditional edges with a branch function and a
branch-key-to-target mapping, the per-field reducer merge collapsed into
`applyUpd : State -> PartialState -> State` (spec section 4.1), and
`inputMerge` for merging an input into a loaded checkpoint state
(spec section 4.3 step 1). -/
structure Graph (σ υ : Type) where
  nodes : List (String × (σ → υ))
  edges : List (NodeId × NodeId)
  condEdges : List (NodeId × (σ → NodeId) × List (NodeId × NodeId))
  applyUpd : σ → υ → σ
  inputMerge : σ → σ → σ

/-- Modelled from the spec: look up a branch key in a conditional edge's
mapping (spec section 4.2). -/
def lookupTarget (m : List (NodeId × NodeId)) (k : NodeId) : Option NodeId :=
  (m.find? (fun p => p.1 == k)).map (fun p => p.2)

/-- Modelled from the spec: targets of the unconditional edges out of a
node. -/
def uncondTargets (g : Graph σ υ) (fr : NodeId) : List NodeId :=
  (g.edges.filter (fun p => p.1 == fr)).map (fun p => p.2)

/-- Modelled from the spec: evaluate each conditional edge's branch function
on the current state and look the returned key up in the mapping; an absent
key fails with `RoutingError` (spec section 4.2). -/
def resolveConds (s : σ) :
    List (NodeId × (σ → NodeId) × List (NodeId × NodeId)) →
    Except EngineError (List NodeId)
  | [] => Except.ok []
  | c :: cs =>
    match lookupTarget c.2.2 (c.2.1 s), resolveConds s cs with
    | some t, Except.ok rest => Except.ok (t :: rest)
    | none, _ => Except.error EngineError.routing
    | some _, Except.error e => Except.error e

/-- Modelled from the spec: `resolveNext(fromNode, state) -> sequence of
nextNode` (spec section 4.2): static targets of unconditional edges plus the
resolved targets of conditional edges. -/
def resolveNext (g : Graph σ υ) (s : σ) (fr : NodeId) :
    Except EngineError (List NodeId) :=
  match resolveConds s (g.condEdges.filter (fun c => c.1 == fr)) with
  | Except.ok ts => Except.ok (uncondTargets g fr ++ ts)
  | Except.error e => Except.error e

/-- Modelled from the spec: the static skeleton of the EdgeTable over which
compile-time reachability analysis runs — node names, unconditional edges,
and the mapping of each conditional edge (the branch functions play no role
in the static analysis). -/
structure Skel where
  nodeNames : List String
  edges : List (NodeId × NodeId)
  condMaps : List (NodeId × List (NodeId × NodeId))
deriving DecidableEq, Repr

/-- The static skeleton of a graph. -/
def skelOf (g : Graph σ υ) : Skel :=
  ⟨g.nodes.map (fun p => p.1), g.edges,
   g.condEdges.map (fun c => (c.1, c.2.2))⟩

/-- Modelled from the spec: static successors of a node for the compile-time
reachability analysis — all unconditional targets plus every target in every
conditional mapping (spec section 4.3, tie-break policies). -/
def staticSucc (sk : Skel) (n : NodeId) : List NodeId :=
  (sk.edges.filter (fun p => p.1 == n)).map (fun p => p.2) ++
    ((sk.condMaps.filter (fun c => c.1 == n)).map
      (fun c => c.2.map (fun p => p.2))).flatten

/-- Iterate a function n times (used to saturate the reachability set). -/
def iterN (f : α → α) : Nat → α → α
  | 0, a => a
  | n + 1, a => iterN f n (f a)

/-- Modelled from the spec: one expansion step of the reachable set. -/
def reachStep (sk : Skel) (acc : List NodeId) : List NodeId :=
  (acc ++ (acc.map (staticSucc sk)).flatten).dedup

/-- Modelled from the spec: the set of nodes statically reachable from a
node, computed by saturating `reachStep` (enough iterations to reach the
fixpoint over the finite node-id universe of the graph). -/
def reach (sk : Skel) (n : NodeId) : List NodeId :=
  iterN (reachStep sk) (sk.nodeNames.length + 2) [n]

/-- Modelled from the spec: the compile-time integrity check on a skeleton —
every node reachable from START must have a path to END (spec sections 4.3
and 8). -/
def skelIntegrity (sk : Skel) : Bool :=
  (reach sk NodeId.START).all fun n =>
    match n with
    | NodeId.node _ => (reach sk n).contains NodeId.END
    | _ => true

/-- Modelled from the spec: the compile-time integrity check of a graph:
static reachability analysis over the EdgeTable's skeleton. -/
def integrityOk (g : Graph σ υ) : Bool :=
  skelIntegrity (skelOf g)

/-- Modelled from the spec: a compiled graph — the topology plus the
interrupt set (immutable for the life of the compiled graph, spec section 3)
and whether a checkpointer was configured. -/
structure Compiled (σ υ : Type) where
  g : Graph σ υ
  interruptBefore : List String
  hasCk : Bool

/-- Modelled from the spec: `compile` validates the graph eagerly: a graph
in which some node reachable from START has no path to END fails fast with
`GraphIntegrityError` before any invocation (spec sections 4.3, 6 and 7). -/
def compileGraph (g : Graph σ υ) (ib : List String) (ck : Bool) :
    Except EngineError (Compiled σ υ) :=
  if integrityOk g then Except.ok ⟨g, ib, ck⟩
  else Except.error EngineError.graphIntegrity

/-- Modelled from the spec: a checkpoint is the full state plus the node(s)
to run next and an interrupted flag, keyed by thread id (spec section 3,
Thread / Checkpoint). -/
structure Checkpoint (σ : Type) where
  state : σ
  pending : List String
  interrupted : Bool
deriving DecidableEq, Repr

/-- Modelled from the spec: the in-memory checkpoint store (MemorySaver):
a map from thread id to its latest checkpoint. -/
abbrev CkStore (σ : Type) := List (String × Checkpoint σ)

/-- Modelled from the spec: `save(threadId, checkpoint)` — idempotent
overwrite, last-write-wins per thread id (spec section 4.4). -/
def saveCk (store : CkStore σ) (tid : String) (ck : Checkpoint σ) :
    CkStore σ :=
  (tid, ck) :: store.filter (fun p => p.1 != tid)

/-- Modelled from the spec: `load(threadId) -> checkpoint | None`
(spec section 4.4). -/
def loadCk (store : CkStore σ) (tid : String) : Option (Checkpoint σ) :=
  (store.find? (fun p => p.1 == tid)).map (fun p => p.2)

/-- Modelled from the spec: the outcome of one `invoke` call: the GraphRunner
finishes in COMPLETED or PAUSED, fails, or (in this bounded model) runs out
of fuel (spec section 4.3). -/
inductive Outcome (σ : Type) where
  | completed : σ → Outcome σ
  | paused : σ → List String → Outcome σ
  | failed : EngineError → Outcome σ
  | outOfFuel : Outcome σ
deriving DecidableEq, Repr

/-- Result of a run: the outcome, the trace of executed node names in
execution order, and the checkpoint store after the run. -/
structure RunResult (σ : Type) where
  outcome : Outcome σ
  trace : List String
  store : CkStore σ
deriving DecidableEq, Repr

/-- Save a checkpoint only when the graph was compiled with a
checkpointer. -/
def saveIf (cg : Compiled σ υ) (store : CkStore σ) (tid : String)
    (ck : Checkpoint σ) : CkStore σ :=
  if cg.hasCk then saveCk store tid ck else store

/-- Look up a node's step function by name. -/
def nodeFn (cg : Compiled σ υ) (name : String) : Option (σ → υ) :=
  (cg.g.nodes.find? (fun p => p.1 == name)).map (fun p => p.2)

/-- The string names among a list of resolved targets. -/
def namesOf (ts : List NodeId) : List String :=
  ts.filterMap fun t =>
    match t with
    | NodeId.node n => some n
    | _ => none

/-- Collect the step functions of a list of scheduled nodes. -/
def collectFns (cg : Compiled σ υ) : List String → Option (List (σ → υ))
  | [] => some []
  | n :: ns =>
    match nodeFn cg n, collectFns cg ns with
    | some f, some fs => some (f :: fs)
    | _, _ => none

/-- Resolve the next-node set of every node executed in a step. -/
def resolveAll (g : Graph σ υ) (s : σ) :
    List NodeId → Except EngineError (List NodeId)
  | [] => Except.ok []
  | t :: ts =>
    match resolveNext g s t, resolveAll g s ts with
    | Except.ok ns, Except.ok rest => Except.ok (ns ++ rest)
    | Except.error e, _ => Except.error e
    | _, Except.error e => Except.error e

/-- Modelled from the spec: the GraphRunner loop (spec section 4.3, step 2):
if the resolved set is exactly END, complete; if a scheduled node is in the
interrupt set (and this is not a resumption past that boundary), pause and
persist `(state, pending, interrupted=true)` without executing; otherwise
invoke every scheduled node's step function on the current state, merge the
collected updates sequentially in schedule order, persist a checkpoint, and
resolve the next node set from the updated state. -/
def runLoop (cg : Compiled σ υ) (tid : String) :
    Nat → σ → List NodeId → Bool → CkStore σ → List String → RunResult σ
  | 0, _, _, _, store, tr => ⟨Outcome.outOfFuel, tr, store⟩
  | fuel + 1, s, targets, skipInt, store, tr =>
    if targets == [NodeId.END] then
      ⟨Outcome.completed s, tr, saveIf cg store tid ⟨s, [], false⟩⟩
    else
      let names := namesOf targets
      if !skipInt && names.any (fun n => cg.interruptBefore.contains n) then
        ⟨Outcome.paused s names, tr, saveIf cg store tid ⟨s, names, true⟩⟩
      else
        match collectFns cg names with
        | none => ⟨Outcome.failed EngineError.missingNode, tr, store⟩
        | some fns =>
          let s2 := (fns.map (fun f => f s)).foldl cg.g.applyUpd s
          let store2 := saveIf cg store tid ⟨s2, [], false⟩
          match resolveAll cg.g s2 targets with
          | Except.error e => ⟨Outcome.failed e, tr ++ names, store2⟩
          | Except.ok nt =>
            runLoop cg tid fuel s2 nt false store2 (tr ++ names)

/-- Modelled from the spec: `invoke(input, threadConfig)` (spec section 4.3,
step 1): load the checkpoint for the thread id; if none exists, initialize
state from the input (required to be a full state) and start at START's
resolved successors; if a checkpoint exists and the input is None, resume
exactly from the stored pending nodes; if a checkpoint exists and an input
is given, merge it into the loaded state and continue from START. -/
def invoke (cg : Compiled σ υ) (input : Option σ) (tid : String)
    (fuel : Nat) (store : CkStore σ) : RunResult σ :=
  match (if cg.hasCk then loadCk store tid else none), input with
  | none, none => ⟨Outcome.failed EngineError.missingInput, [], store⟩
  | none, some s0 =>
    match resolveNext cg.g s0 NodeId.START with
    | Except.error e => ⟨Outcome.failed e, [], store⟩
    | Except.ok ts => runLoop cg tid fuel s0 ts false store []
  | some c, none =>
    if c.interrupted then
      runLoop cg tid fuel c.state (c.pending.map NodeId.node) true store []
    else
      ⟨Outcome.completed c.state, [], store⟩
  | some c, some s =>
    let s1 := cg.g.inputMerge c.state s
    match resolveNext cg.g s1 NodeId.START with
    | Except.error e => ⟨Outcome.failed e, [], store⟩
    | Except.ok ts => runLoop cg tid fuel s1 ts false store []

/-- Modelled from the spec: the view returned by `getState(config)`:
`{values: State, next: [nodeName]}` (spec section 6). -/
structure StateView (σ : Type) where
  values : σ
  next : List String
deriving DecidableEq, Repr

/-- Modelled from the spec: `getState` reads the thread's checkpoint and
reports its state and pending nodes; it does not modify anything. -/
def getState (cg : Compiled σ υ) (store : CkStore σ) (tid : String) :
    Option (StateView σ) :=
  if cg.hasCk then
    (loadCk store tid).map (fun c => ⟨c.state, c.pending⟩)
  else
    none


/-! ## Message model for examples 02, 03 and 04

The message-based examples declare `messages: Annotated[List[str], add]`
and exchange either plain user tuples or model messages carrying a
`tool_calls` list.  A message is modelled with its role, content and tool
calls; a user tuple has no tool calls. -/

/-- A tool call carried by a model message: the tool's name and its
positional arguments. -/
structure ToolCall where
  name : String
  args : List String
deriving DecidableEq, Repr

/-- A message: role, content and the tool calls attached to it (empty for
messages without tool calls, e.g. plain user tuples, for which Python's
`hasattr(last_message, "tool_calls")` is false). -/
structure Msg where
  role : String
  content : String
  tool_calls : List ToolCall
deriving DecidableEq, Repr

/-- From the source (02_react_agent.py line 44, 03_memory_persistence.py
line 18, 04_human_in_the_loop.py line 31): the reducer of the `messages`
field is `operator.add` on lists, i.e. concatenation. -/
def addReducer {α : Type} (cur new : List α) : List α :=
  cur ++ new

/-- The last message of a history (`messages[-1]` in the source; the source
never evaluates it on an empty history, since the agent node always appends
its response first). -/
def lastMsg (s : List Msg) : Msg :=
  s.getLast?.getD ⟨"", "", []⟩

/-- A Python run-time error surfaced by the example modules themselves
(before the engine is involved): evaluating an unbound name raises
`NameError`. -/
inductive PyError where
  | nameError : String → PyError
deriving DecidableEq, Repr

/-- Python name resolution against a module's bound graph names: a bound
name evaluates to its value, an unbound name raises `NameError`. -/
def lookupName (env : List (String × NodeId)) (n : String) :
    Except PyError NodeId :=
  match env.find? (fun p => p.1 == n) with
  | some p => Except.ok p.2
  | none => Except.error (PyError.nameError n)

/-- From the source (02_react_agent.py line 8): the module imports only
`START, StateGraph` from langgraph.graph, so of the graph sentinel names
only START is bound; END is NOT imported and is unbound in this module. -/
def env02 : List (String × NodeId) := [("START", NodeId.START)]

/-- From the source (04_human_in_the_loop.py line 8): the module imports
only `START, StateGraph` from langgraph.graph; END is NOT imported and is
unbound in this module. -/
def env04 : List (String × NodeId) := [("START", NodeId.START)]

/-- From the source (02_react_agent.py, `should_continue`): if the last
message has tool calls, continue to "tools"; otherwise `return END` — and
since END is unbound in this module (line 8), that path raises
`NameError: name 'END' is not defined` instead of returning a key. -/
def shouldContinue02 (s : List Msg) : Except PyError NodeId :=
  if (lastMsg s).tool_calls ≠ [] then Except.ok (NodeId.node "tools")
  else lookupName env02 "END"

/-- From the source (04_human_in_the_loop.py, `should_continue`): textually
identical to 02's: tool calls present goes to "tools"; the `return END`
path raises `NameError`, END being unbound in this module as well. -/
def shouldContinue04 (s : List Msg) : Except PyError NodeId :=
  if (lastMsg s).tool_calls ≠ [] then Except.ok (NodeId.node "tools")
  else lookupName env04 "END"

/-! ## Tools from the source -/

/-- Whether the first list is an initial segment of the second. -/
def leadMatch : List Char → List Char → Bool
  | [], _ => true
  | _ :: _, [] => false
  | a :: as, b :: bs => a == b && leadMatch as bs

/-- Whether the needle occurs as a contiguous sublist of the haystack. -/
def subSearch (needle : List Char) : List Char → Bool
  | [] => leadMatch needle []
  | h :: t => leadMatch needle (h :: t) || subSearch needle t

/-- Python's substring test `needle in hay` on strings. -/
def strContains (hay needle : String) : Bool :=
  subSearch needle.data hay.data

/-- Python's `str.lower()` (character-wise lowercasing). -/
def lowerStr (s : String) : String :=
  String.mk (s.data.map Char.toLower)

/-- From the source (02_react_agent.py, `search_engine`): look the query up
in a fixed database by checking each key against the lowercased query in
insertion order. -/
def searchEngine (query : String) : String :=
  if strContains (lowerStr query) "weather" then
    "The weather is sunny with a high of 75°F."
  else if strContains (lowerStr query) "python" then
    "Python is a high-level programming language."
  else if strContains (lowerStr query) "langgraph" then
    "LangGraph is a framework for building stateful agents."
  else
    "No results found for: " ++ query

/-- From the source (02_react_agent.py, `calculator`): evaluate the
expression with Python's `eval` — modelled as an abstract evaluator
returning a value or an error — and format the result; an exception is
caught and turned into an "Error evaluating expression: " message instead
of propagating. -/
def calculator (ev : String → Except String Int) (expression : String) :
    String :=
  match ev expression with
  | Except.ok r => "The result of " ++ expression ++ " is " ++ toString r
  | Except.error e => "Error evaluating expression: " ++ e

/-- From the source (04_human_in_the_loop.py, `send_email`). -/
def sendEmail (rcpt subject _body : String) : String :=
  "Email sent to " ++ rcpt ++ " with subject '" ++ subject ++ "'"

/-- From the source (04_human_in_the_loop.py, `execute_command`). -/
def executeCommand (command : String) : String :=
  "Executed command: " ++ command

/-- The handler set of the ToolNode of 02_react_agent.py, adapting each
tool of the source to positional arguments. -/
def handlers02 (ev : String → Except String Int) :
    List (String × (List String → String)) :=
  [("search_engine", fun args => searchEngine (args.getD 0 "")),
   ("calculator", fun args => calculator ev (args.getD 0 ""))]

/-- The handler set of the ToolNode of 04_human_in_the_loop.py. -/
def handlers04 : List (String × (List String → String)) :=
  [("send_email",
    fun args => sendEmail (args.getD 0 "") (args.getD 1 "") (args.getD 2 "")),
   ("execute_command", fun args => executeCommand (args.getD 0 ""))]

/-- Modelled from the spec: the ToolNode dispatcher (spec section 4.5):
execute each pending call against its named handler and collect each
handler's result as a new entry; a call naming an unknown handler becomes a
result entry carrying an error payload rather than an exception, so one
failure cannot abort sibling handlers in the same fan-out. -/
def runToolCalls (handlers : List (String × (List String → String)))
    (tcs : List ToolCall) : List Msg :=
  tcs.map fun tc =>
    match handlers.find? (fun h => h.1 == tc.name) with
    | some h => ⟨"tool", h.2 tc.args, []⟩
    | none => ⟨"tool", "Error: unknown tool: " ++ tc.name, []⟩

/-- Modelled from the spec: a ToolNode's step function reads the pending
tool calls of the last message and returns the result messages as the
partial update of the `messages` field (spec sections 4.5 and 9,
agent-tools cycle). -/
def toolNodeFn (handlers : List (String × (List String → String)))
    (s : List Msg) : List Msg :=
  runToolCalls handlers (lastMsg s).tool_calls

/-! ## Example 01: sequential chain -/

/-- From the source (01_sequential_chain.py, `State`): the state schema of
the sequential chain, three string fields, each with the default replace
reducer. -/
structure State01 where
  input : String
  processed : String
  output : String
deriving DecidableEq, Repr

/-- A partial state update of example 01: a dict that may carry any subset
of the three declared keys. -/
structure Upd01 where
  input : Option String
  processed : Option String
  output : Option String
deriving DecidableEq, Repr

/-- Modelled from the spec: the merge of section 4.1 for the schema of
example 01 — for each key present in the update apply the replace reducer,
keys absent from the update are left untouched. -/
def applyUpd01 (s : State01) (u : Upd01) : State01 :=
  ⟨u.input.getD s.input, u.processed.getD s.processed, u.output.getD s.output⟩

/-- Python's `str.upper()` (character-wise uppercasing). -/
def upperStr (s : String) : String :=
  String.mk (s.data.map Char.toUpper)

/-- From the source (01_sequential_chain.py, `step1_process_input`): returns
the single-key update `{"processed": "Processed: " + input.upper()}`. -/
def step1ProcessInput (s : State01) : Upd01 :=
  ⟨none, some ("Processed: " ++ upperStr s.input), none⟩

/-- From the source (01_sequential_chain.py, `step2_generate_output`):
returns the single-key update
`{"output": "Final: " + processed + " + extra transformation"}`. -/
def step2GenerateOutput (s : State01) : Upd01 :=
  ⟨none, none, some ("Final: " ++ s.processed ++ " + extra transformation")⟩

/-- From the source (01_sequential_chain.py, `build_graph`): nodes
"process" and "generate", edges START -> process -> generate -> END,
compiled without a checkpointer. -/
def graph01 : Graph State01 Upd01 where
  nodes := [("process", step1ProcessInput), ("generate", step2GenerateOutput)]
  edges := [(NodeId.START, NodeId.node "process"),
            (NodeId.node "process", NodeId.node "generate"),
            (NodeId.node "generate", NodeId.END)]
  condEdges := []
  applyUpd := applyUpd01
  inputMerge := fun _ s => s

/-- The compiled graph of example 01, as produced by a successful
`compileGraph graph01 [] false`. -/
def compiled01 : Compiled State01 Upd01 := ⟨graph01, [], false⟩

/-! ## Example 02: ReAct agent -/

/-- From the source (02_react_agent.py and 04_human_in_the_loop.py,
`build_graph`, which are structurally identical up to the tool set and
compile options): nodes "agent" (the model call, which appends exactly one
response message — modelled by an abstract response function `resp`) and
"tools" (the ToolNode over the module's handlers); edge START -> agent, a
conditional edge from "agent" via `should_continue` with the mapping
literal `{"tools": "tools", END: END}`, edge tools -> agent, then
graph.compile.  Evaluating the mapping literal (and the END branch of the
`should_continue` closure) requires the module name END, resolved against
the module's imports `env`: when END is unbound the whole build raises
`NameError` at add_conditional_edges, before graph.compile runs. -/
def buildGraphMsgs (env : List (String × NodeId)) (resp : List Msg → Msg)
    (handlers : List (String × (List String → String)))
    (ib : List String) (ck : Bool) :
    Except PyError (Except EngineError (Compiled (List Msg) (List Msg))) :=
  match lookupName env "END" with
  | Except.error e => Except.error e
  | Except.ok endVal =>
    Except.ok (compileGraph
      { nodes := [("agent", fun s => [resp s]),
                  ("tools", toolNodeFn handlers)]
        edges := [(NodeId.START, NodeId.node "agent"),
                  (NodeId.node "tools", NodeId.node "agent")]
        condEdges := [(NodeId.node "agent",
                       fun s =>
                         if (lastMsg s).tool_calls ≠ [] then
                           NodeId.node "tools"
                         else endVal,
                       [(NodeId.node "tools", NodeId.node "tools"),
                        (endVal, endVal)])]
        applyUpd := addReducer
        inputMerge := addReducer } ib ck)

/-- From the source (02_react_agent.py, `build_graph`): the ReAct build —
search_engine and calculator as tools, no checkpointer, no interrupts —
resolved against this module's imports, which do not bind END. -/
def buildGraph02 (resp : List Msg → Msg) (ev : String → Except String Int) :
    Except PyError (Except EngineError (Compiled (List Msg) (List Msg))) :=
  buildGraphMsgs env02 resp (handlers02 ev) [] false

/-! ## Example 03: memory and persistence -/

/-- From the source (03_memory_persistence.py, `build_graph`): one node
"chatbot" (the model call, appending one response message — modelled by an
abstract response function), edges START -> chatbot and chatbot -> START,
and no edge to END anywhere. -/
def graph03 (respond : List Msg → Msg) : Graph (List Msg) (List Msg) where
  nodes := [("chatbot", fun s => [respond s])]
  edges := [(NodeId.START, NodeId.node "chatbot"),
            (NodeId.node "chatbot", NodeId.START)]
  condEdges := []
  applyUpd := addReducer
  inputMerge := addReducer

/-! ## Example 04: human in the loop -/

/-- From the source (04_human_in_the_loop.py, `build_graph`): the same
agent-tools build as example 02, with the ToolNode over send_email and
execute_command, a MemorySaver checkpointer and the interrupt set `ib`
(the source passes `interrupt_before=["tools"]`), resolved against this
module's imports, which do not bind END either. -/
def buildGraph04 (resp : List Msg → Msg) (ib : List String) :
    Except PyError (Except EngineError (Compiled (List Msg) (List Msg))) :=
  buildGraphMsgs env04 resp handlers04 ib true

/-! ## Example 05: multi-agent router -/

/-- From the source (05_multi_agent.py, `State`): query, agent_type and
result, all replace-reduced strings. -/
structure State05 where
  query : String
  agent_type : String
  result : String
deriving DecidableEq, Repr

/-- A partial state update of example 05. -/
structure Upd05 where
  query : Option String
  agent_type : Option String
  result : Option String
deriving DecidableEq, Repr

/-- Modelled from the spec: the replace-reducer merge for the schema of
example 05 (spec section 4.1). -/
def applyUpd05 (s : State05) (u : Upd05) : State05 :=
  ⟨u.query.getD s.query, u.agent_type.getD s.agent_type,
   u.result.getD s.result⟩

/-- From the source (05_multi_agent.py, `route_to_agent`): the coder
keyword list of the router. -/
def coderKeywords : List String :=
  ["code", "function", "api", "implement", "debug"]

/-- From the source (05_multi_agent.py, `route_to_agent`): the writer
keyword list of the router. -/
def writerKeywords : List String :=
  ["write", "article", "blog", "content", "story"]

/-- From the source (05_multi_agent.py, `route_to_agent`): lowercase the
query, route to "coder" if any coder keyword occurs in it, else to "writer"
if any writer keyword occurs, else to "researcher" (the `AgentType` enum
values of the source). -/
def routeToAgent (s : State05) : String :=
  let query := lowerStr s.query
  if coderKeywords.any (fun w => strContains query w) then "coder"
  else if writerKeywords.any (fun w => strContains query w) then "writer"
  else "researcher"

/-- From the source (05_multi_agent.py, the specialized agents): each agent
formats a model response into the `result` field; the model call is an
abstract response function. -/
def agentNode05 (tag : String) (respond : String → String) (s : State05) :
    Upd05 :=
  ⟨none, none, some (tag ++ ": " ++ respond s.query)⟩

/-- From the source (05_multi_agent.py, `build_graph`): three agent nodes,
a conditional edge from START via `route_to_agent` whose mapping sends each
agent-type value to the node of the same name, and an edge from every agent
to END. -/
def graph05 (rr rc rw : String → String) : Graph State05 Upd05 where
  nodes := [("researcher", agentNode05 "RESEARCH" rr),
            ("coder", agentNode05 "CODE" rc),
            ("writer", agentNode05 "CONTENT" rw)]
  edges := [(NodeId.node "researcher", NodeId.END),
            (NodeId.node "coder", NodeId.END),
            (NodeId.node "writer", NodeId.END)]
  condEdges := [(NodeId.START, fun s => NodeId.node (routeToAgent s),
                 [(NodeId.node "researcher", NodeId.node "researcher"),
                  (NodeId.node "coder", NodeId.node "coder"),
                  (NodeId.node "writer", NodeId.node "writer")])]
  applyUpd := applyUpd05
  inputMerge := fun _ s => s

/-- The compiled multi-agent graph (no checkpointer, no interrupts). -/
def compiled05 (rr rc rw : String → String) : Compiled State05 Upd05 :=
  ⟨graph05 rr rc rw, [], false⟩

/-! ## API-trace semantics for getState idempotence -/

/-- Modelled from the spec: an external API operation on a compiled graph:
an `invoke` call or a `getState` call (spec section 6). -/
inductive ApiOp (σ : Type) where
  | invokeOp : Option σ → String → Nat → ApiOp σ
  | getStateOp : String → ApiOp σ

/-- The observable output of one API operation. -/
inductive ApiOut (σ : Type) where
  | ranOut : Outcome σ → ApiOut σ
  | stateOut : Option (StateView σ) → ApiOut σ
deriving DecidableEq, Repr

/-- Whether an API operation is a `getState` call. -/
def ApiOp.isGet : ApiOp σ → Bool
  | ApiOp.getStateOp _ => true
  | _ => false

/-- Modelled from the spec: run one API operation against the checkpoint
store, producing its output and the store afterwards; only `invoke` may
change the store. -/
def stepApi (cg : Compiled σ υ) (store : CkStore σ) :
    ApiOp σ → ApiOut σ × CkStore σ
  | ApiOp.invokeOp inp tid fuel =>
    let r := invoke cg inp tid fuel store
    (ApiOut.ranOut r.outcome, r.store)
  | ApiOp.getStateOp tid => (ApiOut.stateOut (getState cg store tid), store)

/-- Run a sequence of API operations, collecting the outputs in order. -/
def runApi (cg : Compiled σ υ) (store : CkStore σ) :
    List (ApiOp σ) → List (ApiOut σ)
  | [] => []
  | op :: ops =>
    let r := stepApi cg store op
    r.1 :: runApi cg r.2 ops

/-- The final state carried by a completed outcome, if any. -/
def finalOf {σ : Type} : Outcome σ → Option σ
  | Outcome.completed s => some s
  | _ => none

/-! ## Concrete fixtures used by the witness theorems -/

/-- A concrete user message with no tool calls. -/
def wUser : Msg := ⟨"user", "Send an email to alice@example.com about meeting", []⟩

/-- A concrete model response function that never requests tools. -/
def wRespPlain : List Msg → Msg := fun _ => ⟨"assistant", "All done.", []⟩

/-- A concrete failing evaluator standing for a Python `eval` that raises. -/
def wEvFail : String → Except String Int := fun _ =>
  Except.error "division by zero"

/-! ## Helper lemmas -/

/-- A graph that passes the integrity check compiles to the expected
compiled graph. -/
theorem compileGraph_ok {σ υ : Type} (g : Graph σ υ) (ib : List String)
    (ck : Bool) (h : integrityOk g = true) :
    compileGraph g ib ck = Except.ok ⟨g, ib, ck⟩ := by
  simp [compileGraph, h]

/-- A run of get-only API operations followed by one more `getState` call
reports, for that final call, the state view of the store the run started
with: `getState` calls never modify the checkpoint store. -/
theorem runApi_get_append {σ υ : Type} (cg : Compiled σ υ)
    (store : CkStore σ) (tid : String) (ops : List (ApiOp σ))
    (h : ∀ op ∈ ops, op.isGet = true) :
    runApi cg store (ops ++ [ApiOp.getStateOp tid]) =
      runApi cg store ops ++ [ApiOut.stateOut (getState cg store tid)] := by
  induction ops with
  | nil => simp [runApi, stepApi]
  | cons op rest ih =>
    match op with
    | ApiOp.getStateOp t =>
      have hrest : ∀ o ∈ rest, o.isGet = true := fun o ho => h o (by simp [ho])
      simp [runApi, stepApi, ih hrest]
    | ApiOp.invokeOp i t f =>
      have hbad : (ApiOp.invokeOp i t f : ApiOp σ).isGet = true := h _ (by simp)
      simp [ApiOp.isGet] at hbad

/-- Folding the append reducer over a list of partial updates concatenates
them, in order, onto the existing value. -/
theorem foldl_addReducer {α : Type} (upds : List (List α)) :
    ∀ h : List α, upds.foldl addReducer h = h ++ upds.flatten := by
  induction upds with
  | nil => intro h; simp [addReducer]
  | cons u rest ih => intro h; simp [addReducer, ih]

/-! ## Claim theorems -/

/-- C1: the claim says that for every state whose last message has no tool
calls, `should_continue` returns END and the run halts — but END is never
imported in 02_react_agent.py (line 8) or 04_human_in_the_loop.py, so on
every such state both `should_continue` functions raise
`NameError: name 'END' is not defined` instead of returning END, and
02's `build_graph` itself raises the same `NameError` while evaluating the
conditional-edge mapping `{"tools": "tools", END: END}`, so no graph for
`invoke` to halt is ever built: the code contradicts the claimed (and
spec-intended) behavior. -/
theorem C1_should_continue_raises_name_error (s : List Msg)
    (hs : (lastMsg s).tool_calls = []) (resp : List Msg → Msg)
    (ev : String → Except String Int) :
    shouldContinue02 s = Except.error (PyError.nameError "END") ∧
    shouldContinue04 s = Except.error (PyError.nameError "END") ∧
    buildGraph02 resp ev = Except.error (PyError.nameError "END") := by
  refine ⟨?_, ?_, rfl⟩
  · simp [shouldContinue02, hs, lookupName, env02]
  · simp [shouldContinue04, hs, lookupName, env04]

/-- C1 witness: on the concrete no-tool-calls state of a single user
message, both `should_continue` functions raise NameError, and 02's
build_graph fails with NameError before any invoke. -/
theorem C1_should_continue_raises_name_error_witness :
    (lastMsg [wUser]).tool_calls = [] ∧
    (shouldContinue02 [wUser] = Except.error (PyError.nameError "END") ∧
     shouldContinue04 [wUser] = Except.error (PyError.nameError "END") ∧
     buildGraph02 wRespPlain wEvFail =
       Except.error (PyError.nameError "END")) :=
  ⟨by decide,
   C1_should_continue_raises_name_error [wUser] (by decide) wRespPlain
     wEvFail⟩

/-- C2: the graph of 03_memory_persistence.py has "chatbot" reachable from
START but offers it no path to END, so building it fails at compile time
with `GraphIntegrityError`, before any invocation, by static reachability
analysis — whatever the model behavior. -/
theorem C2_graph03_integrity_fails (respond : List Msg → Msg) :
    (reach (skelOf (graph03 respond)) NodeId.START).contains
      (NodeId.node "chatbot") = true ∧
    (reach (skelOf (graph03 respond)) (NodeId.node "chatbot")).contains
      NodeId.END = false ∧
    compileGraph (graph03 respond) [] true =
      Except.error EngineError.graphIntegrity := by
  have hs : skelOf (graph03 respond) =
      ⟨["chatbot"],
       [(NodeId.START, NodeId.node "chatbot"),
        (NodeId.node "chatbot", NodeId.START)], []⟩ := rfl
  refine ⟨?_, ?_, ?_⟩
  · rw [hs]; decide
  · rw [hs]; decide
  · simp +decide [compileGraph, integrityOk, hs]

/-- C3: the claim describes the graph of 04_human_in_the_loop.py compiled
with `interrupt_before=["tools"]` pausing before tools, reporting
next == ["tools"], and resuming to the uninterrupted end state — but END
is never imported in that module (line 8), so `build_graph` raises
`NameError: name 'END' is not defined` while evaluating the
conditional-edge mapping at add_conditional_edges, before `graph.compile`
is ever reached: the claimed compiled-with-interrupt graph never exists,
and the failure is a Python NameError, not an engine error.  This holds
for every model behavior and every interrupt set. -/
theorem C3_build_graph04_raises_name_error (resp : List Msg → Msg)
    (ib : List String) :
    lookupName env04 "END" = Except.error (PyError.nameError "END") ∧
    buildGraph04 resp ["tools"] = Except.error (PyError.nameError "END") ∧
    buildGraph04 resp ib = Except.error (PyError.nameError "END") :=
  ⟨rfl, rfl, rfl⟩

/-- C4: the graph of 01_sequential_chain.py compiles, and for every input
string s, invoking it on {"input": s, "processed": "", "output": ""} runs
node "process" then node "generate", in that order, and returns a state
with processed == "Processed: " ++ uppercase(s) and output ==
"Final: Processed: " ++ uppercase(s) ++ " + extra transformation". -/
theorem C4_sequential_chain_run (s tid : String) (fuel : Nat) :
    compileGraph graph01 [] false = Except.ok compiled01 ∧
    invoke compiled01 (some ⟨s, "", ""⟩) tid (fuel + 3) [] =
      ⟨Outcome.completed ⟨s, "Processed: " ++ upperStr s,
        "Final: Processed: " ++ upperStr s ++ " + extra transformation"⟩,
       ["process", "generate"], []⟩ :=
  ⟨compileGraph_ok graph01 [] false (by decide), rfl⟩

/-- C5: the append reducer declared on the `messages` field concatenates,
in order: folding any list of partial updates onto an existing history
yields the history followed by every update's elements in contribution
order (so ["a"] then ["b"] onto [] gives ["a","b"]), this is exactly the
reducer installed on the message graphs, and a user-message update
followed by a response update extends the stored history in order. -/
theorem C5_append_reducer_order :
    (∀ (α : Type) (h : List α) (upds : List (List α)),
        upds.foldl addReducer h = h ++ upds.flatten) ∧
    addReducer (addReducer ([] : List String) ["a"]) ["b"] = ["a", "b"] ∧
    (∀ respond : List Msg → Msg, (graph03 respond).applyUpd = addReducer) ∧
    (∀ (hist : List Msg) (u r : Msg),
        addReducer (addReducer hist [u]) [r] = hist ++ [u, r]) :=
  ⟨fun _ h upds => foldl_addReducer upds h, rfl, fun _ => rfl,
   fun hist u r => by simp [addReducer]⟩

/-- C6: merging a partial update leaves every key absent from the update
unchanged: in 01_sequential_chain.py, step 1's update carries neither
"input" nor "output", so after step 1 both keep their prior values;
step 2's update carries no "input"; and a full invoke returns the initial
input value unchanged in the "input" field. -/
theorem C6_merge_frame (s p0 out0 tid : String) (fuel : Nat) :
    (step1ProcessInput ⟨s, p0, out0⟩).input = none ∧
    (step1ProcessInput ⟨s, p0, out0⟩).output = none ∧
    (applyUpd01 ⟨s, p0, out0⟩ (step1ProcessInput ⟨s, p0, out0⟩)).input = s ∧
    (applyUpd01 ⟨s, p0, out0⟩ (step1ProcessInput ⟨s, p0, out0⟩)).output
      = out0 ∧
    (step2GenerateOutput ⟨s, p0, out0⟩).input = none ∧
    (finalOf (invoke compiled01 (some ⟨s, "", ""⟩) tid (fuel + 3) []).outcome
      ).map State01.input = some s :=
  ⟨rfl, rfl, rfl, rfl, rfl, rfl⟩

/-- C7: the branch function `route_to_agent` of 05_multi_agent.py is total
over the configured mapping: on every state it returns one of
"researcher", "coder", "writer", and resolving the conditional edge from
START always succeeds with the node of that name — the RoutingError branch
is unreachable for this graph. -/
theorem C7_route_total (q a r : String) (rr rc rw : String → String) :
    (routeToAgent ⟨q, a, r⟩ = "researcher" ∨
      routeToAgent ⟨q, a, r⟩ = "coder" ∨
      routeToAgent ⟨q, a, r⟩ = "writer") ∧
    resolveNext (graph05 rr rc rw) ⟨q, a, r⟩ NodeId.START =
      Except.ok [NodeId.node (routeToAgent ⟨q, a, r⟩)] := by
  by_cases hc : (coderKeywords.any (fun w => strContains (lowerStr q) w))
      = true
  · refine ⟨Or.inr (Or.inl ?_), ?_⟩
    · simp [routeToAgent, hc]
    · simp +decide [routeToAgent, hc, graph05, resolveNext, resolveConds,
        uncondTargets, lookupTarget]
  · by_cases hw : (writerKeywords.any (fun w => strContains (lowerStr q) w))
        = true
    · refine ⟨Or.inr (Or.inr ?_), ?_⟩
      · simp [routeToAgent, hc, hw]
      · simp +decide [routeToAgent, hc, hw, graph05, resolveNext,
          resolveConds, uncondTargets, lookupTarget]
    · refine ⟨Or.inl ?_, ?_⟩
      · simp [routeToAgent, hc, hw]
      · simp +decide [routeToAgent, hc, hw, graph05, resolveNext,
          resolveConds, uncondTargets, lookupTarget]

/-- C8: a failing tool handler is contained: whenever the evaluator raises
on an expression, the calculator of 02_react_agent.py returns a string
beginning "Error evaluating expression: " instead of propagating; and the
ToolNode dispatch is per-call independent — a call in the middle of a
fan-out contributes exactly its own result entry, and every call yields
one entry, so one failing call cannot abort its siblings. -/
theorem C8_calculator_error_contained (ev : String → Except String Int)
    (expr e : String) (h : ev expr = Except.error e)
    (pre post : List ToolCall) (tc : ToolCall) (tcs : List ToolCall) :
    (∃ t, calculator ev expr = "Error evaluating expression: " ++ t) ∧
    calculator ev expr = "Error evaluating expression: " ++ e ∧
    runToolCalls (handlers02 ev) (pre ++ tc :: post) =
      runToolCalls (handlers02 ev) pre ++ runToolCalls (handlers02 ev) [tc]
        ++ runToolCalls (handlers02 ev) post ∧
    (runToolCalls (handlers02 ev) tcs).length = tcs.length := by
  refine ⟨⟨e, by simp [calculator, h]⟩, by simp [calculator, h], ?_, ?_⟩
  · simp [runToolCalls]
  · simp [runToolCalls]

/-- C8 witness: a concrete failing evaluation of "1/0" in a fan-out with a
search call on either side. -/
theorem C8_calculator_error_contained_witness :
    wEvFail "1/0" = Except.error "division by zero" ∧
    ((∃ t, calculator wEvFail "1/0" = "Error evaluating expression: " ++ t) ∧
     calculator wEvFail "1/0" =
       "Error evaluating expression: " ++ "division by zero" ∧
     runToolCalls (handlers02 wEvFail)
         ([⟨"search_engine", ["weather"]⟩] ++ ⟨"calculator", ["1/0"]⟩ ::
           [⟨"search_engine", ["python"]⟩]) =
       runToolCalls (handlers02 wEvFail) [⟨"search_engine", ["weather"]⟩] ++
         runToolCalls (handlers02 wEvFail) [⟨"calculator", ["1/0"]⟩] ++
         runToolCalls (handlers02 wEvFail) [⟨"search_engine", ["python"]⟩] ∧
     (runToolCalls (handlers02 wEvFail)
         [⟨"search_engine", ["weather"]⟩, ⟨"calculator", ["1/0"]⟩]).length =
       [⟨"search_engine", ["weather"]⟩,
        (⟨"calculator", ["1/0"]⟩ : ToolCall)].length) :=
  ⟨rfl, C8_calculator_error_contained wEvFail "1/0" "division by zero" rfl
    [⟨"search_engine", ["weather"]⟩] [⟨"search_engine", ["python"]⟩]
    ⟨"calculator", ["1/0"]⟩
    [⟨"search_engine", ["weather"]⟩, ⟨"calculator", ["1/0"]⟩]⟩

/-- C9: `getState` is idempotent: in any run consisting of a `getState`
call, then any sequence of further `getState` calls with no intervening
`invoke`, then a final `getState` call on the same store, the first and the
last call return the identical state view (same values and same next
list), because `getState` never modifies the checkpoint store. -/
theorem C9_getState_idempotent {σ υ : Type} (cg : Compiled σ υ)
    (store : CkStore σ) (tid : String) (ops : List (ApiOp σ))
    (h : ∀ op ∈ ops, op.isGet = true) :
    runApi cg store (ApiOp.getStateOp tid :: (ops ++ [ApiOp.getStateOp tid]))
      = ApiOut.stateOut (getState cg store tid) ::
          (runApi cg store ops ++
            [ApiOut.stateOut (getState cg store tid)]) := by
  simp [runApi, stepApi, runApi_get_append cg store tid ops h]

/-- C9 witness: two adjacent `getState` calls on a thread of the compiled
sequential graph return the identical result. -/
theorem C9_getState_idempotent_witness :
    (∀ op ∈ ([] : List (ApiOp State01)), op.isGet = true) ∧
    runApi compiled01 []
        (ApiOp.getStateOp "conversation-1" ::
          ([] ++ [ApiOp.getStateOp "conversation-1"])) =
      ApiOut.stateOut none :: ([] ++ [ApiOut.stateOut none]) :=
  ⟨by simp,
   C9_getState_idempotent compiled01 [] "conversation-1" [] (by simp)⟩

/-- C10: routing in `route_to_agent` of 05_multi_agent.py is
case-insensitive — two queries with the same lowercase form route
identically — and coder keywords take precedence: any query whose
lowercase form contains a coder keyword routes to "coder", whatever else
it contains. -/
theorem C10_route_case_insensitive_coder_first (q1 q2 q : String)
    (h : lowerStr q1 = lowerStr q2)
    (hc : (coderKeywords.any (fun w => strContains (lowerStr q) w)) = true)
    (a1 a2 r1 r2 a r : String) :
    routeToAgent ⟨q1, a1, r1⟩ = routeToAgent ⟨q2, a2, r2⟩ ∧
    routeToAgent ⟨q, a, r⟩ = "coder" := by
  constructor
  · simp only [routeToAgent, h]
  · simp [routeToAgent, hc]

/-- C10 witness: "WRITE Code!" and "write code!" route identically, and a
query containing both writer and coder keywords routes to "coder". -/
theorem C10_route_case_insensitive_coder_first_witness :
    lowerStr "WRITE Code!" = lowerStr "write code!" ∧
    (coderKeywords.any (fun w =>
      strContains (lowerStr "Write a blog post and implement the API") w))
      = true ∧
    (routeToAgent ⟨"WRITE Code!", "", ""⟩ =
        routeToAgent ⟨"write code!", "", ""⟩ ∧
     routeToAgent ⟨"Write a blog post and implement the API", "", ""⟩ =
       "coder") :=
  ⟨rfl, by decide,
   C10_route_case_insensitive_coder_first "WRITE Code!" "write code!"
     "Write a blog post and implement the API" rfl (by decide) "" "" "" ""
     "" ""⟩

end LG
